import Mathlib

/-!
Verification development for the `gh-mcp` GitHub MCP server.

The definitions below are a shallow embedding of the TypeScript sources:
  * `src/api/client.ts` variants (the current `GitHubClient` with the
    on-disk metadata cache, REST milestone operations and project-name
    resolution, plus the earlier variant whose `deleteIssue` removes
    subtasks),
  * `src/api/queries.ts` (the shape of the delegated GraphQL calls),
  * `src/types/github.ts` (the data model).

Remote interactions are abstracted by an oracle structure describing the
responses the remote would give; each embedded operation returns the
value the method would produce (or the error it would throw) together
with the list of remote calls it issued, and threads the client state
(`contextCache`, configuration, persisted cache file) explicitly.
-/

namespace GhMcp

/-! ### JavaScript truthiness helpers

The TypeScript source repeatedly relies on JS truthiness (`!!x`,
`x || y`, `x ? a : b`).  For an optional string, `undefined` and the
empty string are falsy; for an optional number, `undefined` and `0` are
falsy.  These helpers reproduce that semantics exactly. -/

/-- JS truthiness of an optional string: `undefined` and `""` are falsy. -/
def truthyS : Option String → Bool
  | none => false
  | some s => !(s == "")

/-- JS truthiness of an optional number: `undefined` and `0` are falsy. -/
def truthyN : Option Nat → Bool
  | none => false
  | some n => !(n == 0)

/-- JS `a || b` on optional strings. -/
def jsOrElse (a b : Option String) : Option String :=
  if truthyS a then a else b

/-- JS `a || null` on an optional string. -/
def orNullS (a : Option String) : Option String :=
  if truthyS a then a else none

/-- JS `a || d` where `d` is a plain string (used for `opts.body || ''`). -/
def jsStrOr (a : Option String) (d : String) : String :=
  match a with
  | some s => if s == "" then d else s
  | none => d

/-- JS `toLowerCase()` (character-wise lowering; stated over the
string's character list so that concrete instances evaluate). -/
def lowerStr (s : String) : String := String.mk (s.data.map Char.toLower)

/-! ### Association-list maps

JS `Map` objects (name → identifier) are embedded as association lists
kept in insertion order; `Map.get` is lookup of the first binding and
`Map.set` overwrites an existing binding or appends a new one. -/

/-- `Map.get`: the value of the first binding of `k`, if any. -/
def lookupA {β : Type} (m : List (String × β)) (k : String) : Option β :=
  (m.find? (fun p => p.1 == k)).map (fun p => p.2)

/-- `Map.set`: overwrite the binding of `k` if present, else append. -/
def setA {β : Type} (m : List (String × β)) (k : String) (v : β) :
    List (String × β) :=
  if (m.find? (fun p => p.1 == k)).isSome then
    m.map (fun p => if p.1 == k then (k, v) else p)
  else
    m ++ [(k, v)]

/-! ### Data model (src/types/github.ts) -/

/-- `GitHubMilestone` from `src/types/github.ts`: identifier, title,
numeric sequence number and optional description. -/
structure GitHubMilestone where
  id : String
  title : String
  number : Nat
  description : Option String
deriving DecidableEq, Repr

/-- The fields of `GitHubIssue` the embedded operations use. -/
structure GitHubIssue where
  id : String
  number : Nat
  title : String
  url : String
deriving DecidableEq, Repr

/-- `ContextData`: the resolved metadata snapshot (repository id,
optional project id, and the three name → identifier maps). -/
structure ContextData where
  repositoryId : String
  projectId : Option String
  labels : List (String × String)
  milestones : List (String × GitHubMilestone)
  issueTypes : List (String × String)
deriving DecidableEq, Repr

/-- The `[optional]` table of `gh-mcp.toml` (`OptionalConfig`). -/
structure OptionalConfig where
  project_name : Option String
  project_number : Option Nat
  current_milestone : Option String
deriving DecidableEq, Repr

/-- The errors the client code can throw: `ConfigError` (the single
dedicated error class declared in `src/types/github.ts`) or a plain
JS `Error`. -/
inductive GhError where
  | configError (msg : String)
  | genericError (msg : String)
deriving DecidableEq, Repr

/-- The JS `name` property of a thrown error (`ConfigError` sets
`this.name = 'ConfigError'`; a plain `Error` has name `"Error"`). -/
def GhError.name : GhError → String
  | .configError _ => "ConfigError"
  | .genericError _ => "Error"

/-- The `message` property of a thrown error. -/
def GhError.message : GhError → String
  | .configError m => m
  | .genericError m => m

/-- The persisted cache record (`CacheSchema` in `src/api/client.ts`):
repo key, timestamp, and the snapshot in serializable form. -/
structure CacheRecord where
  repoKey : String
  timestamp : Nat
  data : ContextData
deriving DecidableEq, Repr

/-- The state of the cache file on disk: absent, unparsable
(read or `JSON.parse` throws), or a parsed record. -/
inductive DiskState where
  | missing
  | corrupt
  | ok (rec : CacheRecord)
deriving DecidableEq, Repr

/-- The mutable state of a `GitHubClient`: repository coordinates from
the configuration, the `[optional]` config table, the in-memory
`contextCache`, and the cache file.  (The token and the configuration
file itself are assumed present; their discovery is not at issue in any
claim.) -/
structure ClientState where
  owner : String
  repo : String
  optional : Option OptionalConfig
  contextCache : Option ContextData
  disk : DiskState
deriving DecidableEq, Repr

/-- `getRepoKey`: `owner/repo`. -/
def repoKey (s : ClientState) : String := s.owner ++ "/" ++ s.repo

/-! ### Remote calls

Every outbound GraphQL/REST request an embedded operation issues is
recorded as a `RemoteCall`, carrying exactly the variables the source
passes to the corresponding query or mutation of `src/api/queries.ts`. -/

/-- One outbound remote request with its variables. -/
inductive RemoteCall where
  | contextFetch (owner repo : String) (projectNumber : Nat) (withProject : Bool)
  | listProjectsOrg (after : Option String)
  | listProjectsUser (after : Option String)
  | createIssueM (repoId title body : String) (labelIds : Option (List String))
      (milestoneId issueTypeId parentIssueId : Option String)
  | addToProjectM (projectId contentId : String)
  | getIssueIdQ (number : Nat)
  | getIssueQ (number : Nat)
  | updateIssueM (issueId : String) (title body : Option String)
      (state : Option String)
  | deleteIssueM (issueId : String)
  | searchIssuesQ (query : String)
  | addLabelsM (issueId : String) (labelIds : List String)
  | createMilestoneRest (title : String)
  | updateMilestoneRest (milestoneNumber : Nat)
deriving DecidableEq, Repr

/-- Is this call the bulk `GET_CONTEXT_IDS` resolution fetch? -/
def isContextFetch : RemoteCall → Bool
  | .contextFetch _ _ _ _ => true
  | _ => false

/-- Number of bulk resolution fetches in a call log. -/
def countFetch (l : List RemoteCall) : Nat :=
  (l.filter isContextFetch).length

/-! ### Name resolution inside `createIssue` / `addLabels`

These are the loops of `GitHubClient.createIssue` (label, milestone and
issue-type resolution) and of `addLabels`/`removeLabels`, lifted out as
functions of the snapshot. -/

/-- Label resolution (`for (const name of opts.labels || []) { const id =
context.labels.get(name); if (id) labelIds.push(id); }`): names that do
not resolve, and names whose stored id is the empty string (falsy), are
skipped. -/
def resolveLabelIds (labels : List (String × String)) :
    List String → List String
  | [] => []
  | name :: rest =>
    match lookupA labels name with
    | some id =>
      if id == "" then resolveLabelIds labels rest
      else id :: resolveLabelIds labels rest
    | none => resolveLabelIds labels rest

/-- Milestone resolution (`context.milestones.get(milestoneName)?.id`):
exact-name lookup only. -/
def resolveMilestoneId (milestones : List (String × GitHubMilestone))
    (name : String) : Option String :=
  (lookupA milestones name).map (fun ms => ms.id)

/-- Issue-type resolution: exact lookup first, then (when the result is
falsy) a scan comparing lowercased names, keeping the first match. -/
def resolveIssueTypeId (issueTypes : List (String × String))
    (name : String) : Option String :=
  let exact := lookupA issueTypes name
  if truthyS exact then exact
  else
    match issueTypes.find? (fun p => lowerStr p.1 == lowerStr name) with
    | some p => some p.2
    | none => exact

/-! ### Disk cache (`loadCacheFromDisk`)

The current client validates a loaded record only by `repoKey` (no TTL
check); a mismatching or unreadable record is ignored and the state is
left unchanged. -/

/-- `loadCacheFromDisk`: populate `contextCache` from the cache file if
it exists, parses, and its `repoKey` equals the active repository's. -/
def loadCacheFromDisk (s : ClientState) : ClientState :=
  match s.disk with
  | .missing => s
  | .corrupt => s
  | .ok rec =>
    if rec.repoKey ≠ repoKey s then s
    else { s with contextCache := some rec.data }

/-! ### Project-board resolution (`resolveProject`)

The remote's answers to the paginated `LIST_PROJECTS_ORG` /
`LIST_PROJECTS_USER` queries are modelled as a list of pages in fetch
order; an `Except.error` entry stands for a query that throws (or whose
`organization`/`user` container is absent), which the source catches
and treats as the end of that search scope. -/

/-- One project node returned by a list-projects page. -/
structure ProjectNode where
  id : String
  number : Nat
  title : String
deriving DecidableEq, Repr

/-- One page of a list-projects response. -/
structure ProjectPage where
  nodes : List ProjectNode
  hasNextPage : Bool
  endCursor : String
deriving DecidableEq, Repr

/-- The case-insensitive title comparison the source uses
(`p.title.toLowerCase() === projectName.toLowerCase()`). -/
def titleMatches (name : String) (p : ProjectNode) : Bool :=
  lowerStr p.title == lowerStr name

/-- The pagination loop over one scope: fetch a page (logging the call
with its cursor), return the first node whose title matches
case-insensitively, stop on a failed query or when `hasNextPage` is
false, else continue with `endCursor`. -/
def searchScopeLog (mk : Option String → RemoteCall) (name : String) :
    Option String → List (Except Unit ProjectPage) →
    Option ProjectNode × List RemoteCall
  | _, [] => (none, [])
  | after, .error _ :: _ => (none, [mk after])
  | after, .ok page :: rest =>
    match page.nodes.find? (titleMatches name) with
    | some m => (some m, [mk after])
    | none =>
      if page.hasNextPage then
        let r := searchScopeLog mk name (some page.endCursor) rest
        (r.1, mk after :: r.2)
      else (none, [mk after])

/-- All nodes the remote would serve across a scope's pages (the nodes
of every successfully returned page). -/
def allNodes (pages : List (Except Unit ProjectPage)) : List ProjectNode :=
  pages.foldr
    (fun p acc =>
      match p with
      | .ok page => page.nodes ++ acc
      | .error _ => acc)
    []

/-- `resolveProject`: try the organization scope, then the user scope;
throw `ConfigError` when both are exhausted without a match. -/
def resolveProject (name owner : String)
    (orgPages userPages : List (Except Unit ProjectPage)) :
    Except GhError ProjectNode × List RemoteCall :=
  let o := searchScopeLog RemoteCall.listProjectsOrg name none orgPages
  match o.1 with
  | some m => (.ok m, o.2)
  | none =>
    let u := searchScopeLog RemoteCall.listProjectsUser name none userPages
    match u.1 with
    | some m => (.ok m, o.2 ++ u.2)
    | none =>
      (.error (.configError
        ("Project with name \"" ++ name ++ "\" not found for owner \""
          ++ owner ++ "\"")),
       o.2 ++ u.2)

/-! ### The bulk resolution fetch (`getContextIds`, fetch path) -/

/-- The remote's response to the `GET_CONTEXT_IDS` query: the
repository id, the label/milestone/issue-type node lists, and (when the
query asks for it) the owner's project with the requested number. -/
structure RepoFetchData where
  repoId : String
  labelNodes : List (String × String)
  milestoneNodes : List GitHubMilestone
  issueTypeNodes : Option (List (String × String))
  ownerProjectV2 : Option String
deriving DecidableEq, Repr

/-- The remote collaborator: the responses it would give to each query
the client can issue. -/
structure Remote where
  fetch : RepoFetchData
  orgPages : List (Except Unit ProjectPage)
  userPages : List (Except Unit ProjectPage)
  issueIdOf : Nat → Option String
  issueOf : Nat → Option GitHubIssue
  createIssueResult : GitHubIssue
  updateIssueResult : GitHubIssue
  restCreateMilestone : Except GhError GitHubMilestone
  restUpdateMilestone : Except GhError GitHubMilestone

/-- Build the label map (`labels.set(label.name, label.id)` over the
nodes, in order; the node lists carry `(name, id)` pairs). -/
def buildStrMap (nodes : List (String × String)) : List (String × String) :=
  nodes.foldl (fun m p => setA m p.1 p.2) []

/-- Build the milestone map (`milestones.set(ms.title, {...})`). -/
def buildMsMap (nodes : List GitHubMilestone) :
    List (String × GitHubMilestone) :=
  nodes.foldl (fun m ms => setA m ms.title ms) []

/-- The configured project name (`optional?.project_name`). -/
def projectNameOpt (s : ClientState) : Option String :=
  s.optional.bind (fun o => o.project_name)

/-- The configured project number (`optional?.project_number`). -/
def projectNumberOpt (s : ClientState) : Option Nat :=
  s.optional.bind (fun o => o.project_number)

/-- The first step of the fetch path: resolve the project number from
its configured name when a project is requested and only the name is
configured (`if (withProject && !projectNumber && optional?.project_name)`),
recording the updated `[optional]` table
(`optional.project_number = projectNumber`). -/
def resolveProjectNumber (r : Remote) (s : ClientState) :
    Except GhError (Option Nat × Option OptionalConfig × List RemoteCall) :=
  let nameOpt := projectNameOpt s
  let numberOpt := projectNumberOpt s
  let withProject := truthyS nameOpt || truthyN numberOpt
  if withProject && !(truthyN numberOpt) && truthyS nameOpt then
    match nameOpt with
    | some nm =>
      let res := resolveProject nm s.owner r.orgPages r.userPages
      match res.1 with
      | .error e => .error e
      | .ok node =>
        .ok (some node.number,
             s.optional.map (fun o => { o with project_number := some node.number }),
             res.2)
    | none => .ok (numberOpt, s.optional, [])
  else .ok (numberOpt, s.optional, [])

/-- Extract the project id from the fetch response: mandatory (a
`ConfigError` when absent) whenever a project number is in play. -/
def checkProjectId (d : RepoFetchData) (owner : String)
    (projectNumber : Option Nat) : Except GhError (Option String) :=
  if truthyN projectNumber then
    match d.ownerProjectV2 with
    | none =>
      .error (.configError
        ("Project #" ++ toString (projectNumber.getD 0)
          ++ " not found for owner " ++ owner))
    | some pid => .ok (some pid)
  else .ok none

/-- Assemble the snapshot from the fetch response. -/
def buildContext (d : RepoFetchData) (projectId : Option String) :
    ContextData :=
  { repositoryId := d.repoId
    projectId := projectId
    labels := buildStrMap d.labelNodes
    milestones := buildMsMap d.milestoneNodes
    issueTypes :=
      match d.issueTypeNodes with
      | some nodes => buildStrMap nodes
      | none => [] }

/-- The tail of the fetch path, after the project number is settled:
issue the bulk fetch, check the project id, build and store the
snapshot, persist it. -/
def fetchAssemble (r : Remote) (s : ClientState) (now : Nat)
    (projectNumber : Option Nat) (optionalCfg : Option OptionalConfig)
    (projLog : List RemoteCall) :
    Except GhError (ContextData × ClientState × List RemoteCall) :=
  match checkProjectId r.fetch s.owner projectNumber with
  | .error e => .error e
  | .ok projectId =>
    let context := buildContext r.fetch projectId
    let s' : ClientState :=
      { owner := s.owner
        repo := s.repo
        optional := optionalCfg
        contextCache := some context
        disk := .ok { repoKey := repoKey s, timestamp := now, data := context } }
    .ok (context, s',
      projLog ++ [.contextFetch s.owner s.repo (projectNumber.getD 0)
                    (truthyN projectNumber)])

/-- The fetch path of `getContextIds`: resolve the project number from
its name when needed, issue the bulk `GET_CONTEXT_IDS` fetch, check the
project id, build the maps, store the snapshot in memory, and persist
it to disk. -/
def fetchContext (r : Remote) (s : ClientState) (now : Nat) :
    Except GhError (ContextData × ClientState × List RemoteCall) :=
  match resolveProjectNumber r s with
  | .error e => .error e
  | .ok t => fetchAssemble r s now t.1 t.2.1 t.2.2

/-- `getContextIds(forceRefresh)`: return the in-memory snapshot if
present and no refresh is forced; otherwise (unless forced) try the
disk cache; otherwise take the fetch path. -/
def getContextIds (r : Remote) (force : Bool) (s : ClientState) (now : Nat) :
    Except GhError (ContextData × ClientState × List RemoteCall) :=
  match s.contextCache, force with
  | some c, false => .ok (c, s, [])
  | _, _ =>
    if force then fetchContext r s now
    else
      let s1 := loadCacheFromDisk s
      match s1.contextCache with
      | some c => .ok (c, s1, [])
      | none => fetchContext r s1 now

/-! ### Number-addressed operations -/

/-- `getIssueId`: the dedicated number → identifier lookup
(`GET_ISSUE_ID`); a null issue in the response becomes a thrown
`ConfigError` mentioning the number. -/
def getIssueId (r : Remote) (number : Nat) : Except GhError String :=
  match r.issueIdOf number with
  | none => .error (.configError ("Issue #" ++ toString number ++ " not found"))
  | some id => .ok id

/-- `getIssue`: fetch one issue by number; a missing issue is returned
as null, not an error. -/
def getIssue (r : Remote) (number : Nat) :
    Option GitHubIssue × List RemoteCall :=
  (r.issueOf number, [.getIssueQ number])

/-- `updateIssue`: resolve the number via `getIssueId`, then issue the
`UPDATE_ISSUE` mutation. -/
def updateIssue (r : Remote) (number : Nat)
    (title body state : Option String) :
    Except GhError (GitHubIssue × List RemoteCall) :=
  match getIssueId r number with
  | .error e => .error e
  | .ok issueId =>
    .ok (r.updateIssueResult,
         [.getIssueIdQ number, .updateIssueM issueId title body state])

/-- `deleteIssue` of the current client: resolve the number via
`getIssueId`, delete that one issue, return `{deleted: 1}`. -/
def deleteIssue (r : Remote) (number : Nat) :
    Except GhError (Nat × List RemoteCall) :=
  match getIssueId r number with
  | .error e => .error e
  | .ok issueId => .ok (1, [.getIssueIdQ number, .deleteIssueM issueId])

/-! ### `createIssue` -/

/-- The options bundle of `createIssue`. -/
structure CreateIssueOpts where
  title : String
  body : Option String
  labels : Option (List String)
  milestone : Option String
  issueType : Option String
  parentIssueId : Option String
deriving DecidableEq, Repr

/-- `createIssue`: resolve the snapshot (non-forced), resolve label,
milestone and issue-type names against it, issue the `CREATE_ISSUE`
mutation, and add the new issue to the project board when one is
configured. -/
def createIssue (r : Remote) (opts : CreateIssueOpts) (s : ClientState)
    (now : Nat) :
    Except GhError (GitHubIssue × ClientState × List RemoteCall) :=
  match getContextIds r false s now with
  | .error e => .error e
  | .ok (context, s1, ctxLog) =>
    let labelIds := resolveLabelIds context.labels (opts.labels.getD [])
    let milestoneName :=
      jsOrElse opts.milestone (s1.optional.bind (fun o => o.current_milestone))
    let milestoneId : Option String :=
      match milestoneName with
      | some mn => if mn == "" then none else resolveMilestoneId context.milestones mn
      | none => none
    let issueTypeId : Option String :=
      match opts.issueType with
      | some tn => if tn == "" then none else resolveIssueTypeId context.issueTypes tn
      | none => none
    let createCall : RemoteCall :=
      .createIssueM context.repositoryId opts.title (jsStrOr opts.body "")
        (if 0 < labelIds.length then some labelIds else none)
        (orNullS milestoneId) (orNullS issueTypeId) (orNullS opts.parentIssueId)
    let issue := r.createIssueResult
    let projLog : List RemoteCall :=
      if truthyS context.projectId then
        [.addToProjectM (context.projectId.getD "") issue.id]
      else []
    .ok (issue, s1, ctxLog ++ [createCall] ++ projLog)

/-- `addLabels`: resolve the snapshot and the issue id, resolve the
label names best-effort, and issue `ADD_LABELS_TO_ISSUE` only when at
least one name resolved. -/
def addLabels (r : Remote) (number : Nat) (labelNames : List String)
    (s : ClientState) (now : Nat) :
    Except GhError (ClientState × List RemoteCall) :=
  match getContextIds r false s now with
  | .error e => .error e
  | .ok (context, s1, ctxLog) =>
    match getIssueId r number with
    | .error e => .error e
    | .ok issueId =>
      let labelIds := resolveLabelIds context.labels labelNames
      let callLog : List RemoteCall :=
        if 0 < labelIds.length then [.addLabelsM issueId labelIds] else []
      .ok (s1, ctxLog ++ [.getIssueIdQ number] ++ callLog)

/-! ### Milestone mutations (REST) -/

/-- The options bundle of `createMilestone`. -/
structure MilestoneOpts where
  title : String
  description : Option String
  dueOn : Option String
  state : Option String
deriving DecidableEq, Repr

/-- `createMilestone`: `POST /repos/{owner}/{repo}/milestones`, then a
forced refresh of the snapshot (`getContextIds(true)`). -/
def createMilestone (r : Remote) (opts : MilestoneOpts) (s : ClientState)
    (now : Nat) :
    Except GhError (GitHubMilestone × ClientState × List RemoteCall) :=
  match r.restCreateMilestone with
  | .error e => .error e
  | .ok ms =>
    match getContextIds r true s now with
    | .error e => .error e
    | .ok (_, s1, refreshLog) =>
      .ok (ms, s1, .createMilestoneRest opts.title :: refreshLog)

/-- `updateMilestone`: accept a number directly, or resolve a title via
the snapshot (throwing a plain `Error` when unknown); then
`PATCH` the milestone and force-refresh the snapshot. -/
def updateMilestone (r : Remote) (ident : String ⊕ Nat) (s : ClientState)
    (now : Nat) :
    Except GhError (GitHubMilestone × ClientState × List RemoteCall) :=
  match ident with
  | .inr n =>
    match r.restUpdateMilestone with
    | .error e => .error e
    | .ok ms =>
      match getContextIds r true s now with
      | .error e => .error e
      | .ok (_, s1, refreshLog) =>
        .ok (ms, s1, .updateMilestoneRest n :: refreshLog)
  | .inl name =>
    match getContextIds r false s now with
    | .error e => .error e
    | .ok (context, s1, ctxLog) =>
      match lookupA context.milestones name with
      | none => .error (.genericError ("Milestone \"" ++ name ++ "\" not found"))
      | some ms0 =>
        match r.restUpdateMilestone with
        | .error e => .error e
        | .ok ms =>
          match getContextIds r true s1 now with
          | .error e => .error e
          | .ok (_, s2, refreshLog) =>
            .ok (ms, s2, ctxLog ++ [.updateMilestoneRest ms0.number] ++ refreshLog)

/-! ### The earlier client's `deleteIssue` (subtask cascade)

This embeds `GitHubClient.deleteIssue` of the variant in
`src/api/client.ts` that removes an issue's subtasks: search for issues
whose text matches `"Subtask of #N"`, delete each found subtask, then
delete the parent, returning the total count.  `V1.deleteIssue` yields
the full remote-call log (what the remote observes) and the
caller-visible outcome. -/
namespace V1

/-- A node of the subtask search result (the `search.nodes` entries can
be null, hence `Option` in the node list). -/
structure SubtaskNode where
  id : String
  number : Nat
deriving DecidableEq, Repr

/-- The remote collaborator for the cascade delete, with a per-issue
delete outcome so partial failures can be described. -/
structure DeleteRemote where
  subtaskNodes : List (Option SubtaskNode)
  issueIdOf : Nat → Option String
  deleteOutcome : String → Except GhError Unit

/-- The text-pattern search query the source builds. -/
def subtaskQuery (owner repo : String) (number : Nat) : String :=
  "repo:" ++ owner ++ "/" ++ repo ++ " \"Subtask of #" ++ toString number
    ++ "\" is:issue"

/-- The subtask deletion loop: skip null nodes and falsy ids, delete
each subtask in order, count successes, and abort on the first error
(the exception propagates; the count accumulated so far is a local
variable that is lost). -/
def deleteSubtasks (r : DeleteRemote) :
    List (Option SubtaskNode) → Nat → List RemoteCall × Except GhError Nat
  | [], acc => ([], .ok acc)
  | none :: rest, acc => deleteSubtasks r rest acc
  | some node :: rest, acc =>
    if node.id == "" then deleteSubtasks r rest acc
    else
      match r.deleteOutcome node.id with
      | .error e => ([.deleteIssueM node.id], .error e)
      | .ok _ =>
        let res := deleteSubtasks r rest (acc + 1)
        (.deleteIssueM node.id :: res.1, res.2)

/-- `deleteIssue` (earlier variant): find subtasks by pattern search,
delete them, then resolve and delete the parent; on success return
`{deleted: count + 1}`. -/
def deleteIssue (r : DeleteRemote) (owner repo : String) (number : Nat) :
    List RemoteCall × Except GhError Nat :=
  let q := subtaskQuery owner repo number
  let sub := deleteSubtasks r r.subtaskNodes 0
  match sub.2 with
  | .error e => (RemoteCall.searchIssuesQ q :: sub.1, .error e)
  | .ok deletedCount =>
    match r.issueIdOf number with
    | none =>
      (RemoteCall.searchIssuesQ q :: sub.1 ++ [.getIssueIdQ number],
       .error (.configError ("Issue #" ++ toString number ++ " not found")))
    | some parentId =>
      match r.deleteOutcome parentId with
      | .error e =>
        (RemoteCall.searchIssuesQ q :: sub.1
          ++ [.getIssueIdQ number, .deleteIssueM parentId], .error e)
      | .ok _ =>
        (RemoteCall.searchIssuesQ q :: sub.1
          ++ [.getIssueIdQ number, .deleteIssueM parentId],
         .ok (deletedCount + 1))

end V1

/-! ### Sandbox executor (modelled from the spec)

Modelled from the spec: the repository's `ScriptExecutor`
implementation (`src/mcp/script-executor.ts`) is not among the sources
(only its test file and its callers are), so the executor is modelled
from §4.1 of the specification: scripts run under a wall-clock budget
(default 30 seconds); on expiry the execution is forcibly terminated
with `Failure(Timeout, "execution exceeded time budget")`; an uncaught
thrown value becomes `Failure(ScriptError, message)`; completion yields
`Value` (possibly of the undefined-equivalent). -/

/-- The failure kinds of the spec's error taxonomy (§7). -/
inductive FailureKind where
  | timeout
  | scriptError
  | configurationError
  | notFoundError
  | remoteApiError
deriving DecidableEq, Repr

/-- Modelled from the spec: a script's behaviour when allowed to run to
completion — it either completes with a value (none = the
undefined-equivalent) or throws, in either case after a given
wall-clock duration in milliseconds. -/
inductive ScriptBehavior where
  | completes (duration : Nat) (value : Option String)
  | throws (duration : Nat) (msg : String)
deriving DecidableEq, Repr

/-- `ExecutionOutcome`: a value or a classified failure. -/
inductive ExecutionOutcome where
  | value (v : Option String)
  | failure (kind : FailureKind) (msg : String)
deriving DecidableEq, Repr

/-- The wall-clock duration a script would need to finish. -/
def ScriptBehavior.duration : ScriptBehavior → Nat
  | .completes d _ => d
  | .throws d _ => d

/-- The default wall-clock budget (30 seconds). -/
def defaultBudgetMs : Nat := 30000

/-- Modelled from the spec: the sandbox executor under a wall-clock
budget.  A script that would need longer than the budget is forcibly
terminated with the fixed timeout failure; otherwise its own completion
or thrown error determines the outcome. -/
def executeScript (budget : Nat) (b : ScriptBehavior) : ExecutionOutcome :=
  if budget < b.duration then
    .failure .timeout "execution exceeded time budget"
  else
    match b with
    | .completes _ v => .value v
    | .throws _ msg => .failure .scriptError msg

/-! ### Concrete fixtures

Concrete snapshots, remotes and client states used to evaluate the
embedded operations on the scenarios the specification describes. -/

/-- The snapshot of the spec's concrete scenario:
`{labels: {"Bug":"L1"}, milestones: {"v1.0":{id:"M1", number:5}},
issueTypes: {}, repositoryId:"R1", projectId:null}`. -/
def ctx1 : ContextData :=
  { repositoryId := "R1", projectId := none, labels := [("Bug", "L1")],
    milestones :=
      [("v1.0", { id := "M1", title := "v1.0", number := 5, description := none })],
    issueTypes := [] }

/-- The same snapshot attached to a project board `"PJ"`. -/
def ctx2 : ContextData := { ctx1 with projectId := some "PJ" }

/-- A remote collaborator serving the scenario snapshot and reporting
no issue for any number (its issue lookups return null). -/
def remote0 : Remote :=
  { fetch :=
      { repoId := "R1", labelNodes := [("Bug", "L1")],
        milestoneNodes :=
          [{ id := "M1", title := "v1.0", number := 5, description := none }],
        issueTypeNodes := some [], ownerProjectV2 := none }
    orgPages := [], userPages := []
    issueIdOf := fun _ => none
    issueOf := fun _ => none
    createIssueResult := { id := "I1", number := 42, title := "Fix crash", url := "u" }
    updateIssueResult := { id := "I1", number := 42, title := "t", url := "u" }
    restCreateMilestone :=
      .ok { id := "M2", title := "v2.0", number := 6, description := none }
    restUpdateMilestone :=
      .ok { id := "M1", title := "v1.0", number := 5, description := none } }

/-- The same remote, but issue number 1 exists (id `"I1"`). -/
def remote1 : Remote :=
  { remote0 with issueIdOf := fun n => if n == 1 then some "I1" else none }

/-- A client whose in-memory snapshot is already resolved to `ctx1`. -/
def state1 : ClientState :=
  { owner := "o", repo := "r", optional := none,
    contextCache := some ctx1, disk := .missing }

/-- A client whose resolved snapshot is project-linked (`ctx2`). -/
def state2 : ClientState := { state1 with contextCache := some ctx2 }

/-- A cold client holding a persisted record for a different repository
(`x/y` instead of `o/r`). -/
def state4 : ClientState :=
  { owner := "o", repo := "r", optional := none, contextCache := none,
    disk := .ok { repoKey := "x/y", timestamp := 999, data := ctx2 } }

/-- The create options of the spec's concrete scenario:
`{title:"Fix crash", labels:["Bug"], milestone:"v1.0"}`. -/
def opts1 : CreateIssueOpts :=
  { title := "Fix crash", body := none, labels := some ["Bug"],
    milestone := some "v1.0", issueType := none, parentIssueId := none }

/-- Two subtasks of issue 7 and a delete oracle failing on `"S1"`
(no dependent is deleted before the error). -/
def rDelA : V1.DeleteRemote :=
  { subtaskNodes := [some { id := "S1", number := 101 }, some { id := "S2", number := 102 }]
    issueIdOf := fun k => if k == 7 then some "P7" else none
    deleteOutcome := fun id =>
      if id == "S1" then .error (.genericError "GraphQL Error: Boom") else .ok () }

/-- The same subtasks with the delete oracle failing on `"S2"` (one
dependent is deleted before the error). -/
def rDelB : V1.DeleteRemote :=
  { rDelA with
    deleteOutcome := fun id =>
      if id == "S2" then .error (.genericError "GraphQL Error: Boom") else .ok () }

/-- The same subtasks with every delete succeeding. -/
def rDelC : V1.DeleteRemote :=
  { rDelA with deleteOutcome := fun _ => .ok () }

/-- How many of the delete calls in a log the remote accepted — the
number of dependents actually removed by the time the operation ended. -/
def succeededDeletes (r : V1.DeleteRemote) (log : List RemoteCall) : Nat :=
  (log.filter (fun c =>
    match c with
    | .deleteIssueM id =>
      match r.deleteOutcome id with
      | .ok _ => true
      | .error _ => false
    | _ => false)).length

/-- The ids of the subtask nodes the deletion loop acts on (non-null
nodes with a truthy id), in order. -/
def validSubtaskIds (nodes : List (Option V1.SubtaskNode)) : List String :=
  nodes.filterMap (fun n =>
    match n with
    | none => none
    | some node => if node.id == "" then none else some node.id)

/-! ### Supporting lemmas -/

theorem countFetch_cons (c : RemoteCall) (l : List RemoteCall) :
    countFetch (c :: l) =
      (if isContextFetch c then 1 else 0) + countFetch l := by
  simp only [countFetch, List.filter_cons]
  split <;> simp [Nat.add_comm]

theorem countFetch_append (l1 l2 : List RemoteCall) :
    countFetch (l1 ++ l2) = countFetch l1 + countFetch l2 := by
  simp [countFetch, List.filter_append]

theorem allNodes_cons_ok (page : ProjectPage)
    (ps : List (Except Unit ProjectPage)) :
    allNodes (.ok page :: ps) = page.nodes ++ allNodes ps := rfl

theorem allNodes_cons_err (u : Unit) (ps : List (Except Unit ProjectPage)) :
    allNodes (.error u :: ps) = allNodes ps := rfl

/-- The pagination loop only issues the list-projects query it was
given: its log holds no bulk resolution fetch. -/
theorem searchScopeLog_no_fetch (mk : Option String → RemoteCall)
    (hmk : ∀ x, isContextFetch (mk x) = false) (name : String) :
    ∀ (ps : List (Except Unit ProjectPage)) (a : Option String),
      countFetch (searchScopeLog mk name a ps).2 = 0 := by
  intro ps
  induction ps with
  | nil => intro a; simp [searchScopeLog, countFetch]
  | cons p rest ih =>
    intro a
    cases p with
    | error u => simp [searchScopeLog, countFetch, hmk]
    | ok page =>
      simp only [searchScopeLog]
      cases hf : page.nodes.find? (titleMatches name) with
      | some m => simp [countFetch, hmk]
      | none =>
        by_cases hn : page.hasNextPage
        · simp only [hn, if_true]
          rw [countFetch_cons]
          simp [hmk, ih]
        · simp [hn, countFetch, hmk]

/-- A node returned by the pagination loop comes from one of the
scope's pages and matches the requested title case-insensitively. -/
theorem searchScopeLog_some (mk : Option String → RemoteCall)
    (name : String) :
    ∀ (ps : List (Except Unit ProjectPage)) (a : Option String)
      (m : ProjectNode),
      (searchScopeLog mk name a ps).1 = some m →
      m ∈ allNodes ps ∧ titleMatches name m = true := by
  intro ps
  induction ps with
  | nil => intro a m h; simp [searchScopeLog] at h
  | cons p rest ih =>
    intro a m h
    cases p with
    | error u => simp [searchScopeLog] at h
    | ok page =>
      simp only [searchScopeLog] at h
      cases hf : page.nodes.find? (titleMatches name) with
      | some q =>
        rw [hf] at h
        simp at h
        subst h
        refine ⟨?_, List.find?_some hf⟩
        rw [allNodes_cons_ok]
        exact List.mem_append_left _ (List.mem_of_find?_eq_some hf)
      | none =>
        rw [hf] at h
        by_cases hn : page.hasNextPage
        · rw [if_pos hn] at h
          simp at h
          obtain ⟨hm, ht⟩ := ih _ _ h
          refine ⟨?_, ht⟩
          rw [allNodes_cons_ok]
          exact List.mem_append_right _ hm
        · rw [if_neg hn] at h
          simp at h

/-- If no node of a scope matches, the pagination loop finds nothing. -/
theorem searchScopeLog_none (mk : Option String → RemoteCall)
    (name : String) (ps : List (Except Unit ProjectPage))
    (h : ∀ p ∈ allNodes ps, titleMatches name p = false)
    (a : Option String) : (searchScopeLog mk name a ps).1 = none := by
  cases hr : (searchScopeLog mk name a ps).1 with
  | none => rfl
  | some m =>
    obtain ⟨hm, ht⟩ := searchScopeLog_some mk name ps a m hr
    rw [h m hm] at ht
    cases ht

/-- The project-resolution log holds no bulk resolution fetch. -/
theorem resolveProject_no_fetch (name owner : String)
    (org user : List (Except Unit ProjectPage)) :
    countFetch (resolveProject name owner org user).2 = 0 := by
  have ho := searchScopeLog_no_fetch RemoteCall.listProjectsOrg
    (fun _ => rfl) name org none
  have hu := searchScopeLog_no_fetch RemoteCall.listProjectsUser
    (fun _ => rfl) name user none
  unfold resolveProject
  cases h1 : (searchScopeLog RemoteCall.listProjectsOrg name none org).1 with
  | some m => simp only [h1]; exact ho
  | none =>
    simp only [h1]
    cases h2 : (searchScopeLog RemoteCall.listProjectsUser name none user).1 with
    | some m => simp only [h2]; rw [countFetch_append, ho, hu]
    | none => simp only [h2]; rw [countFetch_append, ho, hu]

/-- The first step of the fetch path issues no bulk fetch either. -/
theorem resolveProjectNumber_no_fetch (r : Remote) (s : ClientState)
    (pn : Option Nat) (o : Option OptionalConfig) (log : List RemoteCall)
    (h : resolveProjectNumber r s = .ok (pn, o, log)) : countFetch log = 0 := by
  simp only [resolveProjectNumber] at h
  split at h
  · cases hname : projectNameOpt s with
    | none => rw [hname] at h; simp at h; simp [h.2.2, countFetch]
    | some nm =>
      rw [hname] at h
      simp only at h
      cases hres : (resolveProject nm s.owner r.orgPages r.userPages).1 with
      | error e => rw [hres] at h; simp at h
      | ok node =>
        rw [hres] at h
        simp at h
        obtain ⟨-, -, h3⟩ := h
        rw [← h3]
        exact resolveProject_no_fetch nm s.owner r.orgPages r.userPages
  · simp at h
    obtain ⟨-, -, h3⟩ := h
    subst h3
    rfl

/-- A successful assembly step stores the returned snapshot in memory,
and its log is the project log followed by the single bulk fetch. -/
theorem fetchAssemble_ok (r : Remote) (s : ClientState) (now : Nat)
    (pn : Option Nat) (o' : Option OptionalConfig)
    (projLog : List RemoteCall)
    (c : ContextData) (s' : ClientState) (log : List RemoteCall)
    (h : fetchAssemble r s now pn o' projLog = .ok (c, s', log)) :
    s'.contextCache = some c ∧
      log = projLog ++ [.contextFetch s.owner s.repo (pn.getD 0) (truthyN pn)] := by
  unfold fetchAssemble at h
  cases hcp : checkProjectId r.fetch s.owner pn with
  | error e => rw [hcp] at h; simp at h
  | ok pid =>
    rw [hcp] at h
    simp at h
    obtain ⟨hc, hs, hl⟩ := h
    subst hc
    rw [← hs, ← hl]
    exact ⟨rfl, rfl⟩

/-- A successful fetch path stores the returned snapshot in memory and
issues exactly one bulk resolution fetch. -/
theorem fetchContext_ok (r : Remote) (s : ClientState) (now : Nat)
    (c : ContextData) (s' : ClientState) (log : List RemoteCall)
    (h : fetchContext r s now = .ok (c, s', log)) :
    s'.contextCache = some c ∧ countFetch log = 1 := by
  unfold fetchContext at h
  cases hrp : resolveProjectNumber r s with
  | error e => rw [hrp] at h; simp at h
  | ok t =>
    obtain ⟨pn, o', projLog⟩ := t
    rw [hrp] at h
    obtain ⟨h1, h2⟩ := fetchAssemble_ok r s now pn o' projLog c s' log h
    refine ⟨h1, ?_⟩
    rw [h2, countFetch_append,
      resolveProjectNumber_no_fetch r s pn o' projLog hrp]
    rfl

/-- `getContextIds(false)` on a warm in-memory cache: immediate hit. -/
theorem getContextIds_cacheHit (r : Remote) (s : ClientState) (now : Nat)
    (c : ContextData) (hc : s.contextCache = some c) :
    getContextIds r false s now = .ok (c, s, []) := by
  unfold getContextIds
  rw [hc]

/-- `getContextIds(false)` on a cold memory cache with a usable disk
record: disk hit, no remote call. -/
theorem getContextIds_diskHit (r : Remote) (s : ClientState) (now : Nat)
    (c : ContextData) (hc : s.contextCache = none)
    (hlc : (loadCacheFromDisk s).contextCache = some c) :
    getContextIds r false s now = .ok (c, loadCacheFromDisk s, []) := by
  unfold getContextIds
  rw [hc]
  simp only [hlc]
  rfl

/-- `getContextIds(false)` with both caches cold takes the fetch path. -/
theorem getContextIds_cold (r : Remote) (s : ClientState) (now : Nat)
    (hc : s.contextCache = none)
    (hlc : (loadCacheFromDisk s).contextCache = none) :
    getContextIds r false s now = fetchContext r (loadCacheFromDisk s) now := by
  unfold getContextIds
  rw [hc]
  simp only [hlc]
  rfl

/-- `getContextIds(true)` always takes the fetch path. -/
theorem getContextIds_force (r : Remote) (s : ClientState) (now : Nat) :
    getContextIds r true s now = fetchContext r s now := by
  unfold getContextIds
  cases hc : s.contextCache <;> rfl

/-- A successful `getContextIds` leaves the returned snapshot in memory
and issues at most one bulk resolution fetch. -/
theorem getContextIds_ok (r : Remote) (force : Bool) (s : ClientState)
    (now : Nat) (c : ContextData) (s' : ClientState) (log : List RemoteCall)
    (h : getContextIds r force s now = .ok (c, s', log)) :
    s'.contextCache = some c ∧ countFetch log ≤ 1 := by
  cases force with
  | true =>
    rw [getContextIds_force] at h
    obtain ⟨h1, h2⟩ := fetchContext_ok r s now c s' log h
    exact ⟨h1, le_of_eq h2⟩
  | false =>
    cases hc : s.contextCache with
    | some c0 =>
      rw [getContextIds_cacheHit r s now c0 hc] at h
      simp at h
      obtain ⟨h1, h2, h3⟩ := h
      subst h1 h2 h3
      exact ⟨hc, by simp [countFetch]⟩
    | none =>
      cases hlc : (loadCacheFromDisk s).contextCache with
      | some c0 =>
        rw [getContextIds_diskHit r s now c0 hc hlc] at h
        simp at h
        obtain ⟨h1, h2, h3⟩ := h
        subst h1 h2 h3
        exact ⟨hlc, by simp [countFetch]⟩
      | none =>
        rw [getContextIds_cold r s now hc hlc] at h
        obtain ⟨h1, h2⟩ := fetchContext_ok r (loadCacheFromDisk s) now c s' log h
        exact ⟨h1, le_of_eq h2⟩

/-- A forced `getContextIds` that succeeds issues exactly one bulk
resolution fetch. -/
theorem getContextIds_forced_fetch (r : Remote) (s : ClientState)
    (now : Nat) (c : ContextData) (s' : ClientState) (log : List RemoteCall)
    (h : getContextIds r true s now = .ok (c, s', log)) :
    countFetch log = 1 := by
  rw [getContextIds_force] at h
  exact (fetchContext_ok r s now c s' log h).2

/-- Removing a name that does not resolve leaves the resolved id list
unchanged: unknown names are dropped, never an error. -/
theorem resolveLabelIds_drop (labels : List (String × String)) (n : String)
    (h : lookupA labels n = none) :
    ∀ (pre post : List String),
      resolveLabelIds labels (pre ++ n :: post) =
        resolveLabelIds labels (pre ++ post) := by
  intro pre post
  induction pre with
  | nil => simp [resolveLabelIds, h]
  | cons p pre ih =>
    simp only [List.cons_append, resolveLabelIds]
    cases hl : lookupA labels p <;> simp [ih]

/-- Every resolved id comes from a name that is present in the map. -/
theorem resolveLabelIds_sound (labels : List (String × String)) :
    ∀ (names : List String) (id : String),
      id ∈ resolveLabelIds labels names →
      ∃ n ∈ names, lookupA labels n = some id := by
  intro names
  induction names with
  | nil => intro id h; simp [resolveLabelIds] at h
  | cons m rest ih =>
    intro id h
    simp only [resolveLabelIds] at h
    cases hl : lookupA labels m with
    | none =>
      rw [hl] at h
      obtain ⟨n, hn, hid⟩ := ih id h
      exact ⟨n, List.mem_cons_of_mem m hn, hid⟩
    | some idm =>
      rw [hl] at h
      by_cases he : idm == ""
      · simp [he] at h
        obtain ⟨n, hn, hid⟩ := ih id h
        exact ⟨n, List.mem_cons_of_mem m hn, hid⟩
      · simp [he] at h
        rcases h with h1 | h1
        · exact ⟨m, List.mem_cons_self m rest, by rw [hl, h1]⟩
        · obtain ⟨n, hn, hid⟩ := ih id h1
          exact ⟨n, List.mem_cons_of_mem m hn, hid⟩

/-- When every valid subtask delete succeeds, the deletion loop issues
one delete per valid subtask id, in order, and counts them all. -/
theorem deleteSubtasks_allOk (r : V1.DeleteRemote) :
    ∀ (nodes : List (Option V1.SubtaskNode)),
      (∀ i ∈ validSubtaskIds nodes, r.deleteOutcome i = .ok ()) →
      ∀ acc, V1.deleteSubtasks r nodes acc =
        ((validSubtaskIds nodes).map RemoteCall.deleteIssueM,
         .ok (acc + (validSubtaskIds nodes).length)) := by
  intro nodes
  induction nodes with
  | nil => intro _ acc; simp [V1.deleteSubtasks, validSubtaskIds]
  | cons nd rest ih =>
    intro hall acc
    cases nd with
    | none =>
      have hall' : ∀ i ∈ validSubtaskIds rest, r.deleteOutcome i = .ok () := by
        intro i hi
        exact hall i (by simpa [validSubtaskIds, List.filterMap_cons] using hi)
      simpa [V1.deleteSubtasks, validSubtaskIds, List.filterMap_cons]
        using ih hall' acc
    | some node =>
      by_cases hid : node.id == ""
      · have hid' : node.id = "" := by simpa using hid
        have hval : validSubtaskIds (some node :: rest) = validSubtaskIds rest := by
          simp [validSubtaskIds, List.filterMap_cons, hid']
        have hall' : ∀ i ∈ validSubtaskIds rest, r.deleteOutcome i = .ok () := by
          intro i hi; exact hall i (by rw [hval]; exact hi)
        rw [hval]
        simpa [V1.deleteSubtasks, hid] using ih hall' acc
      · have hid' : ¬ node.id = "" := by simpa using hid
        have hval : validSubtaskIds (some node :: rest) =
            node.id :: validSubtaskIds rest := by
          simp [validSubtaskIds, List.filterMap_cons, hid']
        have hok : r.deleteOutcome node.id = .ok () := by
          apply hall
          rw [hval]
          exact List.mem_cons_self _ _
        have hall' : ∀ i ∈ validSubtaskIds rest, r.deleteOutcome i = .ok () := by
          intro i hi
          apply hall
          rw [hval]
          exact List.mem_cons_of_mem _ hi
        rw [hval]
        simp only [V1.deleteSubtasks]
        rw [if_neg hid, hok, ih hall' (acc + 1)]
        simp [List.map_cons]
        omega

/-- The fetch path never reads the disk: its outcome is unchanged by
the content of the cache file. -/
theorem fetchContext_disk_irrel (r : Remote) (s : ClientState) (now : Nat)
    (d : DiskState) :
    fetchContext r { s with disk := d } now = fetchContext r s now := rfl

/-- A persisted record for a different repository is ignored by
`loadCacheFromDisk`. -/
theorem loadCacheFromDisk_mismatch (s : ClientState) (rec : CacheRecord)
    (hd : s.disk = .ok rec) (hk : rec.repoKey ≠ repoKey s) :
    loadCacheFromDisk s = s := by
  unfold loadCacheFromDisk
  rw [hd]
  simp only [hk]
  rw [if_pos hk]

/-! ### Claim theorems -/

/-- **C1**: on any client whose resolved snapshot is
`{repositoryId:"R1", labels:{"Bug":"L1"}, milestones:{"v1.0":{id:"M1",
number:5}}, issueTypes:{}, projectId:null}`, calling
`createIssue({title:"Fix crash", labels:["Bug"], milestone:"v1.0"})`
issues the delegated `CREATE_ISSUE` mutation with `repoId = "R1"`,
`labelIds = ["L1"]` and `milestoneId = "M1"` (and nothing else). -/
theorem c1_create_issue_scenario (o rp : String) (opt : Option OptionalConfig)
    (d : DiskState) (r : Remote) (now : Nat) :
    createIssue r opts1
      { owner := o, repo := rp, optional := opt,
        contextCache := some ctx1, disk := d } now =
      .ok (r.createIssueResult,
        { owner := o, repo := rp, optional := opt,
          contextCache := some ctx1, disk := d },
        [.createIssueM "R1" "Fix crash" "" (some ["L1"]) (some "M1")
          none none]) := by
  rfl

/-- **C2**: label names that are absent from the snapshot's label map
are silently dropped from the resolved identifier list — dropping an
unknown name leaves the list unchanged, every resolved id comes from a
present name, and on `["Bug","Nonexistent"]` with only `"Bug"` known
the list is exactly `["L1"]`, both in isolation and as passed
downstream by `addLabels`. -/
theorem c2_best_effort_labels :
    (∀ (labels : List (String × String)) (n : String)
        (pre post : List String), lookupA labels n = none →
        resolveLabelIds labels (pre ++ n :: post) =
          resolveLabelIds labels (pre ++ post))
  ∧ (∀ (labels : List (String × String)) (names : List String)
        (id : String), id ∈ resolveLabelIds labels names →
        ∃ n ∈ names, lookupA labels n = some id)
  ∧ resolveLabelIds [("Bug", "L1")] ["Bug", "Nonexistent"] = ["L1"]
  ∧ addLabels remote1 1 ["Bug", "Nonexistent"] state1 7 =
      .ok (state1, [.getIssueIdQ 1, .addLabelsM "I1" ["L1"]]) := by
  refine ⟨?_, ?_, rfl, rfl⟩
  · intro labels n pre post h
    exact resolveLabelIds_drop labels n h pre post
  · intro labels names id h
    exact resolveLabelIds_sound labels names id h

/-- Witness for C2 at a concrete input: dropping `"Nonexistent"` (which
does not resolve) from `["Bug","Nonexistent"]` changes nothing. -/
theorem c2_best_effort_labels_witness :
    resolveLabelIds [("Bug", "L1")] (["Bug"] ++ "Nonexistent" :: []) =
      resolveLabelIds [("Bug", "L1")] (["Bug"] ++ []) :=
  c2_best_effort_labels.1 [("Bug", "L1")] "Nonexistent" ["Bug"] [] (by rfl)

/-- **C3**: when `getContextIds(false)` returns a snapshot, calling it
again with no forced refresh in between returns the very same snapshot
and state with no remote call at all, and the two calls together issue
at most one bulk resolution fetch. -/
theorem c3_idempotent_resolution (r : Remote) (s : ClientState) (now : Nat)
    (c : ContextData) (s1 : ClientState) (log1 : List RemoteCall)
    (h : getContextIds r false s now = .ok (c, s1, log1)) :
    getContextIds r false s1 now = .ok (c, s1, []) ∧ countFetch log1 ≤ 1 := by
  obtain ⟨h1, h2⟩ := getContextIds_ok r false s now c s1 log1 h
  exact ⟨getContextIds_cacheHit r s1 now c h1, h2⟩

/-- Witness for C3 at a concrete input: a warm client resolves twice
with zero fetches and an unchanged snapshot. -/
theorem c3_idempotent_resolution_witness :
    getContextIds remote0 false state1 7 = .ok (ctx1, state1, []) ∧
      countFetch [] ≤ 1 :=
  c3_idempotent_resolution remote0 state1 7 ctx1 state1 [] (by rfl)

/-- **C4**: a persisted record whose `repoKey` differs from the active
repository is never loaded: `getContextIds(false)` behaves exactly as
if no cache file existed — whatever the record's timestamp — and any
successful resolution from that state performs exactly one full remote
fetch. -/
theorem c4_repo_key_isolation (rec : CacheRecord) (r : Remote)
    (s : ClientState) (now : Nat)
    (h1 : s.contextCache = none) (h2 : s.disk = .ok rec)
    (h3 : rec.repoKey ≠ repoKey s) :
    getContextIds r false s now =
        getContextIds r false { s with disk := .missing } now
  ∧ (∀ c s' log, getContextIds r false s now = .ok (c, s', log) →
      countFetch log = 1) := by
  have hload : loadCacheFromDisk s = s := loadCacheFromDisk_mismatch s rec h2 h3
  have hlc : (loadCacheFromDisk s).contextCache = none := by
    rw [hload]; exact h1
  have hL : getContextIds r false s now = fetchContext r s now := by
    rw [getContextIds_cold r s now h1 hlc, hload]
  have h1' : ({ s with disk := DiskState.missing } : ClientState).contextCache
      = none := h1
  have hR : getContextIds r false { s with disk := .missing } now =
      fetchContext r s now := by
    rw [getContextIds_cold r _ now h1' h1']
    exact fetchContext_disk_irrel r s now .missing
  constructor
  · rw [hL, hR]
  · intro c s' log h
    rw [hL] at h
    exact (fetchContext_ok r s now c s' log h).2

/-- Witness for C4 at a concrete input: a record persisted for `x/y`
is ignored by a client configured for `o/r`, which resolves with one
full fetch exactly as with no cache file. -/
theorem c4_repo_key_isolation_witness :
    getContextIds remote0 false state4 7 =
        getContextIds remote0 false { state4 with disk := .missing } 7
  ∧ countFetch [RemoteCall.contextFetch "o" "r" 0 false] = 1 := by
  have h := c4_repo_key_isolation { repoKey := "x/y", timestamp := 999, data := ctx2 }
    remote0 state4 7 (by rfl) (by rfl) (by decide)
  refine ⟨h.1, ?_⟩
  exact h.2 ctx1
    { owner := "o", repo := "r", optional := none, contextCache := some ctx1,
      disk := .ok { repoKey := "o/r", timestamp := 7, data := ctx1 } }
    [RemoteCall.contextFetch "o" "r" 0 false] (by rfl)

/-- Counterexample for C5 as stated: the not-found failure of a
number-addressed operation is the code's `ConfigError` (its single
error class, whose JS `name` is `"ConfigError"`, not `"NotFoundError"`),
and `getIssue` of a missing number returns null rather than failing. -/
theorem c5_notfound_kind_counterexample :
    updateIssue remote0 9999 none none none =
      .error (.configError "Issue #9999 not found")
  ∧ (GhError.configError "Issue #9999 not found").name = "ConfigError"
  ∧ ((GhError.configError "Issue #9999 not found").name = "NotFoundError" →
      False)
  ∧ (getIssue remote0 9999).1 = none := by
  refine ⟨rfl, rfl, ?_, rfl⟩
  intro h
  simp [GhError.name] at h

/-- **C5 (amended)**: `updateIssue` and `deleteIssue` first resolve the
number through the dedicated `getIssueId` lookup and, when no issue
with that number exists remotely, fail with a thrown `ConfigError`
whose message mentions the number (`"Issue #N not found"`) — not a
crash, but also not a dedicated NotFound kind, since `ConfigError` is
the code's only error class; `getIssue` returns null instead of
failing. -/
theorem c5_notfound_amended (r : Remote) (n : Nat) (t b st : Option String)
    (h : r.issueIdOf n = none) (h2 : r.issueOf n = none) :
    updateIssue r n t b st =
      .error (.configError ("Issue #" ++ toString n ++ " not found"))
  ∧ deleteIssue r n =
      .error (.configError ("Issue #" ++ toString n ++ " not found"))
  ∧ (getIssue r n).1 = none := by
  refine ⟨?_, ?_, ?_⟩
  · unfold updateIssue getIssueId
    rw [h]
  · unfold deleteIssue getIssueId
    rw [h]
  · unfold getIssue
    rw [h2]

/-- Witness for C5 (amended) at number 9999 against a remote with no
issues. -/
theorem c5_notfound_amended_witness :
    updateIssue remote0 9999 none none none =
      .error (.configError ("Issue #" ++ toString 9999 ++ " not found"))
  ∧ deleteIssue remote0 9999 =
      .error (.configError ("Issue #" ++ toString 9999 ++ " not found"))
  ∧ (getIssue remote0 9999).1 = none :=
  c5_notfound_amended remote0 9999 none none none (by rfl) (by rfl)

/-- Counterexample for C6 as stated: two runs of the cascading
`deleteIssue` that fail after a different number of dependents were
already deleted (none vs one) surface the very same caller-visible
outcome — the already-deleted count is not carried alongside the
error. -/
theorem c6_partial_count_counterexample :
    (V1.deleteIssue rDelA "o" "r" 7).2 =
      .error (.genericError "GraphQL Error: Boom")
  ∧ (V1.deleteIssue rDelB "o" "r" 7).2 = (V1.deleteIssue rDelA "o" "r" 7).2
  ∧ succeededDeletes rDelA (V1.deleteIssue rDelA "o" "r" 7).1 = 0
  ∧ succeededDeletes rDelB (V1.deleteIssue rDelB "o" "r" 7).1 = 1 :=
  ⟨rfl, rfl, rfl, rfl⟩

/-- **C6 (amended)**: the cascading `deleteIssue` finds dependents via
the `"Subtask of #N"` pattern search, deletes each valid dependent in
order, then resolves and deletes the parent, and on full success
returns `{deleted: dependents + 1}`; when an error interrupts it after
some dependents were deleted, the error alone propagates — the count
accumulated so far is discarded (see the counterexample). -/
theorem c6_cascade_delete_amended (r : V1.DeleteRemote)
    (owner repo : String) (number : Nat) (parentId : String)
    (hall : ∀ i ∈ validSubtaskIds r.subtaskNodes, r.deleteOutcome i = .ok ())
    (hpid : r.issueIdOf number = some parentId)
    (hpdel : r.deleteOutcome parentId = .ok ()) :
    V1.deleteIssue r owner repo number =
      (RemoteCall.searchIssuesQ (V1.subtaskQuery owner repo number) ::
        (validSubtaskIds r.subtaskNodes).map RemoteCall.deleteIssueM ++
        [.getIssueIdQ number, .deleteIssueM parentId],
       .ok ((validSubtaskIds r.subtaskNodes).length + 1)) := by
  have hsub := deleteSubtasks_allOk r r.subtaskNodes hall 0
  unfold V1.deleteIssue
  rw [hsub]
  simp [hpid, hpdel]

/-- Witness for C6 (amended): with both subtasks and the parent
deletable, the cascade deletes `S1`, `S2`, then the parent, and
reports three deletions. -/
theorem c6_cascade_delete_amended_witness :
    V1.deleteIssue rDelC "o" "r" 7 =
      (RemoteCall.searchIssuesQ (V1.subtaskQuery "o" "r" 7) ::
        (validSubtaskIds rDelC.subtaskNodes).map RemoteCall.deleteIssueM ++
        [.getIssueIdQ 7, .deleteIssueM "P7"],
       .ok ((validSubtaskIds rDelC.subtaskNodes).length + 1)) :=
  c6_cascade_delete_amended rDelC "o" "r" 7 "P7"
    (fun _ _ => rfl) (by rfl) (by rfl)

/-- **C7**: resolving a configured project name paginates the
organization scope and then the personal-account scope; if no node of
either scope matches the name case-insensitively the result is the
`ConfigError` resolution failure; a returned board always matches
case-insensitively and comes from one of the scopes; an organization
match takes precedence; and inside the fetch path (name configured,
no explicit number) the resolution failure aborts `getContextIds`
with that very error. -/
theorem c7_project_resolution (name owner : String)
    (org user : List (Except Unit ProjectPage)) :
    ((∀ p ∈ allNodes org, titleMatches name p = false) →
     (∀ p ∈ allNodes user, titleMatches name p = false) →
      (resolveProject name owner org user).1 =
        .error (.configError ("Project with name \"" ++ name ++
          "\" not found for owner \"" ++ owner ++ "\"")))
  ∧ (∀ m, (resolveProject name owner org user).1 = .ok m →
      titleMatches name m = true ∧ (m ∈ allNodes org ∨ m ∈ allNodes user))
  ∧ (∀ m, (searchScopeLog RemoteCall.listProjectsOrg name none org).1 = some m →
      (resolveProject name owner org user).1 = .ok m)
  ∧ (∀ (r : Remote) (s : ClientState) (now : Nat) (e : GhError),
      projectNameOpt s = some name → ¬ name = "" →
      projectNumberOpt s = none →
      r.orgPages = org → r.userPages = user → s.owner = owner →
      (resolveProject name owner org user).1 = .error e →
      fetchContext r s now = .error e) := by
  refine ⟨?_, ?_, ?_, ?_⟩
  · intro ho hu
    have h1 := searchScopeLog_none RemoteCall.listProjectsOrg name org ho none
    have h2 := searchScopeLog_none RemoteCall.listProjectsUser name user hu none
    simp only [resolveProject, h1, h2]
  · intro m h
    cases ho : (searchScopeLog RemoteCall.listProjectsOrg name none org).1 with
    | some q =>
      simp only [resolveProject, ho] at h
      obtain ⟨hq, ht⟩ := searchScopeLog_some RemoteCall.listProjectsOrg
        name org none q ho
      simp at h
      subst h
      exact ⟨ht, Or.inl hq⟩
    | none =>
      simp only [resolveProject, ho] at h
      cases hu : (searchScopeLog RemoteCall.listProjectsUser name none user).1 with
      | some q =>
        simp only [hu] at h
        obtain ⟨hq, ht⟩ := searchScopeLog_some RemoteCall.listProjectsUser
          name user none q hu
        simp at h
        subst h
        exact ⟨ht, Or.inr hq⟩
      | none =>
        simp only [hu] at h
        cases h
  · intro m hm
    simp only [resolveProject, hm]
  · intro r s now e h1 h2 h3 h4 h5 h6 hres
    have hts : truthyS (some name) = true := by simp [truthyS, h2]
    have hrpn : resolveProjectNumber r s = .error e := by
      unfold resolveProjectNumber
      rw [h1, h3, h4, h5, h6]
      simp only [hts, truthyN, Bool.or_false, Bool.not_false, Bool.and_true,
        Bool.and_self, if_true]
      rw [hres]
    unfold fetchContext
    rw [hrpn]

/-- Witness for C7 at a concrete input: with one organization page
holding only "Roadmap" and a failing user scope, resolving "Road"
exhausts both scopes and fails with the `ConfigError`. -/
theorem c7_project_resolution_witness :
    (resolveProject "Road" "octo"
        [Except.ok { nodes := [{ id := "P1", number := 1, title := "Roadmap" }],
                     hasNextPage := false, endCursor := "c1" }]
        [Except.error ()]).1 =
      .error (.configError
        ("Project with name \"Road\" not found for owner \"octo\"")) :=
  (c7_project_resolution "Road" "octo"
      [Except.ok { nodes := [{ id := "P1", number := 1, title := "Roadmap" }],
                   hasNextPage := false, endCursor := "c1" }]
      [Except.error ()]).1
    (by decide) (by decide)

/-- Counterexample for C8 as stated: creating a project-linked issue on
a warm client issues only the create mutation and the add-to-project
call — no context fetch at all, forced or otherwise — and leaves the
cached snapshot untouched, so no forced refresh follows this
metadata-introducing mutation. -/
theorem c8_create_issue_no_refresh_counterexample :
    createIssue remote0 opts1 state2 7 =
      .ok (remote0.createIssueResult, state2,
        [.createIssueM "R1" "Fix crash" "" (some ["L1"]) (some "M1") none none,
         .addToProjectM "PJ" "I1"])
  ∧ countFetch
      [.createIssueM "R1" "Fix crash" "" (some ["L1"]) (some "M1") none none,
       .addToProjectM "PJ" "I1"] = 0
  ∧ state2.contextCache = some ctx2 :=
  ⟨rfl, rfl, rfl⟩

/-- **C8 (amended)**: `createMilestone` and `updateMilestone` trigger a
forced metadata refresh (exactly one bulk fetch) after their REST
mutation; `createIssue` does not — on a client with a resolved
snapshot it issues no context fetch at all and leaves the snapshot
unchanged, even when the new issue is project-linked. -/
theorem c8_metadata_refresh_amended (r : Remote) (s : ClientState)
    (now : Nat) (opts : MilestoneOpts) (ident : String ⊕ Nat)
    (iopts : CreateIssueOpts) :
    (∀ ms s1 log, createMilestone r opts s now = .ok (ms, s1, log) →
      ∃ rest, log = .createMilestoneRest opts.title :: rest ∧
        countFetch rest = 1)
  ∧ (∀ ms s1 log, updateMilestone r ident s now = .ok (ms, s1, log) →
      ∃ pre k rest, log = pre ++ .updateMilestoneRest k :: rest ∧
        countFetch rest = 1)
  ∧ (∀ issue s1 log c, s.contextCache = some c →
      createIssue r iopts s now = .ok (issue, s1, log) →
      countFetch log = 0 ∧ s1.contextCache = some c) := by
  refine ⟨?_, ?_, ?_⟩
  · intro ms s1 log h
    unfold createMilestone at h
    cases hrest : r.restCreateMilestone with
    | error e => rw [hrest] at h; simp at h
    | ok ms0 =>
      rw [hrest] at h
      dsimp only at h
      cases hctx : getContextIds r true s now with
      | error e => rw [hctx] at h; simp at h
      | ok t =>
        obtain ⟨c', s'', rlog⟩ := t
        rw [hctx] at h
        simp at h
        obtain ⟨-, -, hlog⟩ := h
        exact ⟨rlog, hlog.symm,
          getContextIds_forced_fetch r s now c' s'' rlog hctx⟩
  · intro ms s1 log h
    cases ident with
    | inr n =>
      unfold updateMilestone at h
      dsimp only at h
      cases hrest : r.restUpdateMilestone with
      | error e => rw [hrest] at h; simp at h
      | ok ms0 =>
        rw [hrest] at h
        dsimp only at h
        cases hctx : getContextIds r true s now with
        | error e => rw [hctx] at h; simp at h
        | ok t =>
          obtain ⟨c', s'', rlog⟩ := t
          rw [hctx] at h
          simp at h
          obtain ⟨-, -, hlog⟩ := h
          exact ⟨[], n, rlog, by rw [← hlog]; rfl,
            getContextIds_forced_fetch r s now c' s'' rlog hctx⟩
    | inl nm =>
      unfold updateMilestone at h
      dsimp only at h
      cases hctx : getContextIds r false s now with
      | error e => rw [hctx] at h; simp at h
      | ok t =>
        obtain ⟨c1, s1', ctxLog⟩ := t
        rw [hctx] at h
        dsimp only at h
        cases hms : lookupA c1.milestones nm with
        | none => rw [hms] at h; simp at h
        | some ms0 =>
          rw [hms] at h
          dsimp only at h
          cases hrest : r.restUpdateMilestone with
          | error e => rw [hrest] at h; simp at h
          | ok msr =>
            rw [hrest] at h
            dsimp only at h
            cases hctx2 : getContextIds r true s1' now with
            | error e => rw [hctx2] at h; simp at h
            | ok t2 =>
              obtain ⟨c2, s2, rlog⟩ := t2
              rw [hctx2] at h
              simp at h
              obtain ⟨-, -, hlog⟩ := h
              exact ⟨ctxLog, ms0.number, rlog, by rw [← hlog],
                getContextIds_forced_fetch r s1' now c2 s2 rlog hctx2⟩
  · intro issue s1 log c hc h
    unfold createIssue at h
    rw [getContextIds_cacheHit r s now c hc] at h
    simp at h
    obtain ⟨-, hs1, hlog⟩ := h
    subst hs1
    refine ⟨?_, hc⟩
    rw [← hlog]
    by_cases hp : truthyS c.projectId = true <;>
      simp [hp, countFetch_append, countFetch, isContextFetch]

/-- Witness for C8 (amended) at a concrete input: creating milestone
"v2.0" on a warm client issues the REST mutation and then exactly one
forced bulk fetch. -/
theorem c8_metadata_refresh_amended_witness :
    ∃ rest,
      ([RemoteCall.createMilestoneRest "v2.0",
        RemoteCall.contextFetch "o" "r" 0 false] : List RemoteCall) =
        .createMilestoneRest "v2.0" :: rest ∧ countFetch rest = 1 :=
  (c8_metadata_refresh_amended remote0 state1 7
      { title := "v2.0", description := none, dueOn := none, state := none }
      (Sum.inr 5) opts1).1
    { id := "M2", title := "v2.0", number := 6, description := none }
    { owner := "o", repo := "r", optional := none, contextCache := some ctx1,
      disk := .ok { repoKey := "o/r", timestamp := 7, data := ctx1 } }
    [RemoteCall.createMilestoneRest "v2.0",
     RemoteCall.contextFetch "o" "r" 0 false]
    (by rfl)

/-- **C9**: a script that would suspend past the wall-clock budget is
forcibly terminated: the outcome is the fixed timeout failure, never a
value. -/
theorem c9_timeout_enforcement (budget : Nat) (b : ScriptBehavior)
    (h : budget < b.duration) :
    executeScript budget b =
      .failure .timeout "execution exceeded time budget"
  ∧ ∀ v, executeScript budget b ≠ .value v := by
  unfold executeScript
  rw [if_pos h]
  exact ⟨rfl, fun v hv => ExecutionOutcome.noConfusion hv⟩

/-- Witness for C9: a script needing 30001 ms under the default
30000 ms budget times out and yields no value. -/
theorem c9_timeout_enforcement_witness :
    executeScript defaultBudgetMs (.completes 30001 (some "x")) =
      .failure .timeout "execution exceeded time budget"
  ∧ ∀ v, executeScript defaultBudgetMs (.completes 30001 (some "x")) ≠
      .value v :=
  c9_timeout_enforcement defaultBudgetMs (.completes 30001 (some "x"))
    (by decide)

/-- **C10**: issue-type resolution falls back to a lowercased-name scan
(so a name differing from a known issue type only in case still
resolves), while label and milestone resolution are exact-match only
(a case-variant of a known name does not resolve: the label is dropped
and the milestone lookup is empty). -/
theorem c10_case_insensitive_issue_types
    (types labels : List (String × String))
    (milestones : List (String × GitHubMilestone))
    (tn ln mn m id : String) :
    (lookupA types tn = none →
      types.find? (fun p => lowerStr p.1 == lowerStr tn) = some (m, id) →
      resolveIssueTypeId types tn = some id)
  ∧ (lookupA labels ln = none →
      (∃ p ∈ labels, lowerStr p.1 = lowerStr ln) →
      resolveLabelIds labels [ln] = [])
  ∧ (lookupA milestones mn = none →
      (∃ q ∈ milestones, lowerStr q.1 = lowerStr mn) →
      resolveMilestoneId milestones mn = none) := by
  refine ⟨?_, ?_, ?_⟩
  · intro h1 h2
    simp [resolveIssueTypeId, h1, h2, truthyS]
  · intro h1 _
    simp [resolveLabelIds, h1]
  · intro h1 _
    simp [resolveMilestoneId, h1]

/-- Witness for C10 at concrete inputs: `"bug"` resolves against issue
type `"Bug"`, but label `"bug"` and milestone `"V1.0"` fail against
known `"Bug"` / `"v1.0"`. -/
theorem c10_case_insensitive_issue_types_witness :
    resolveIssueTypeId [("Bug", "T1")] "bug" = some "T1"
  ∧ resolveLabelIds [("Bug", "L1")] ["bug"] = []
  ∧ resolveMilestoneId
      [("v1.0", { id := "M1", title := "v1.0", number := 5, description := none })]
      "V1.0" = none := by
  have h := c10_case_insensitive_issue_types [("Bug", "T1")] [("Bug", "L1")]
    [("v1.0", { id := "M1", title := "v1.0", number := 5, description := none })]
    "bug" "bug" "V1.0" "Bug" "T1"
  exact ⟨h.1 (by rfl) (by rfl),
    h.2.1 (by rfl) ⟨("Bug", "L1"), by simp, by decide⟩,
    h.2.2 (by rfl) ⟨("v1.0",
      { id := "M1", title := "v1.0", number := 5, description := none }),
      by simp, by decide⟩⟩

end GhMcp
